import Mathlib

/-!
Verification of the mock lab analyzer core: a shallow embedding of
`src/lab_analyzer/analyzer.py` (MLLP codec, HL7 order extraction, result
composition, outbound sender) and `src/shared/state.py` (the pending-order
store), together with theorems settling the specification's claims.

Modelling conventions:
* Byte strings are `List Nat`; HL7 text values are `String`.
* The external `hl7` parsing library is modelled by its output structure: a
  parsed message is a list of segments, each segment a list of field strings
  (index 0 is the segment name, matching `seg[i]` / `str(seg[i])` access in
  the Python code; for MSH, index 1 is the field separator and index 2 the
  encoding characters, exactly as the `hl7` library exposes them).
* `random.randint`/`uuid.uuid4`/`datetime.now` are modelled as explicit
  parameters (the code uses their results only as opaque strings).
* Python float observation values are modelled as rationals; the `%.2f`
  format specifier is modelled as round-half-to-even at two decimals.
-/

namespace MockLab

/-- The dictionary returned by `DummyLabAnalyzer.parse_order_message`
(`src/lab_analyzer/analyzer.py`, lines 242-259), one entry per key. -/
structure ParsedOrder where
  sending_application : String
  sending_facility : String
  message_control_id : String
  patient_id : String
  patient_name : String
  patient_dob : String
  patient_sex : String
  patient_address : String
  patient_phone : String
  encounter_id : String
  placer_order : String
  filler_order : String
  ordering_provider : String
  test_id : String
  test_name : String
  test_system : String
deriving DecidableEq, Repr

/-! ## MLLP codec (`analyzer.py` lines 14-16, 122-126, 166-176) -/

/-- `MLLP_START = b'\x0b'`. -/
def MLLP_START : List Nat := [0x0b]

/-- `MLLP_END = b'\x1c\x0d'`. -/
def MLLP_END : List Nat := [0x1c, 0x0d]

/-- `wrap_mllp`: `MLLP_START + message + MLLP_END` (both the service and the
dummy analyzer define the identical method; the str-to-bytes encode step is
prior to the byte-level model). -/
def wrap_mllp (message : List Nat) : List Nat :=
  MLLP_START ++ message ++ MLLP_END

/-- `unwrap_mllp`: if the frame starts with the start byte and ends with the
two end bytes, return `data[1:-2]`; otherwise return `data` unchanged. -/
def unwrap_mllp (data : List Nat) : List Nat :=
  if MLLP_START.isPrefixOf data && MLLP_END.isSuffixOf data then
    (data.drop 1).take (data.length - 3)
  else data

/-! ## Observation-field table and result composition
(`LabAnalyzerService`, `analyzer.py` lines 25-120) -/

/-- Whitespace in the sense of Python's `str.strip()`. -/
def isPyWhitespace (c : Char) : Bool :=
  c = ' ' || c = '\t' || c = '\n' || c = '\x0d' || c = '\x0b' || c = '\x0c'

/-- Python `s.strip()`: drop leading and trailing whitespace. -/
def pyStrip (s : String) : String :=
  ⟨((s.data.dropWhile isPyWhitespace).reverse.dropWhile isPyWhitespace).reverse⟩

/-- One entry of the `test_fields` table in
`LabAnalyzerService.get_observation_fields` (a Python dict with keys
`id`, `name`, `unit`, `reference`, `value`, `interpretation`). -/
structure ObsField where
  id : String
  name : String
  unit : String
  reference : String
  value : String
  interpretation : String
deriving DecidableEq, Repr

/-- `LabAnalyzerService.get_observation_fields` (lines 25-56): the static
test-code → observation-field table, looked up on `test_id.strip()`, with
`[]` for an unknown code (`test_fields.get(test_id_clean, [])`). -/
def get_observation_fields (test_id : String) : List ObsField :=
  let test_id_clean := pyStrip test_id
  if test_id_clean = "LP99237-7" then
    [⟨"717-9", "Hemoglobin [Presence] in Blood", "g/dL", "12.0-16.0 (F) / 13.0-17.0 (M)", "13.2", "Normal"⟩,
     ⟨"LP15101-6", "Hematocrit", "%", "36-46 (F) / 40-52 (M)", "39.5", "Normal"⟩,
     ⟨"LP393833-1", "Leukocyte phosphatase | White blood cells | Hematology and Cell counts", "10*9/L", "4.0-10.0", "11.8", "Abnormal"⟩,
     ⟨"LP7536-8", "RBC", "10*12/L", "4.2-5.4", "4.8", "Normal"⟩]
  else if test_id_clean = "BMP" then
    [⟨"2345-7", "Glucose", "mg/dL", "70-100", "92", "Normal"⟩,
     ⟨"3094-0", "Blood Urea Nitrogen", "mg/dL", "7-20", "15", "Normal"⟩,
     ⟨"2160-0", "Creatinine", "mg/dL", "0.6-1.2", "0.9", "Normal"⟩,
     ⟨"2951-2", "Sodium", "mmol/L", "136-145", "140", "Normal"⟩,
     ⟨"2823-3", "Potassium", "mmol/L", "3.5-5.0", "4.2", "Normal"⟩]
  else if test_id_clean = "GLUCOSE" then
    [⟨"1554-5", "Glucose", "mg/dL", "70-105", "88", "Normal"⟩]
  else if test_id_clean = "1554-5" then
    [⟨"1554-5", "Glucose", "mg/dL", "70-105", "88", "Normal"⟩]
  else if test_id_clean = "26604007" then
    [⟨"LP32067-8", "Hemoglobin", "g/dL", "12.0-17.0", "13.2", "Normal"⟩,
     ⟨"LP15101-6", "Hematocrit", "%", "36.0-50.0", "39.5", "Normal"⟩,
     ⟨"LA12896-9", "Erythrocytes", "10*6/uL", "4.0-10.0", "11.8", "Abnormal"⟩,
     ⟨"LP7631-7", "Platelets", "10*3/uL", "150-400", "250", "Normal"⟩]
  else []

/-- The table's key set (the known test codes). -/
def knownTestCodes : List String :=
  ["LP99237-7", "BMP", "GLUCOSE", "1554-5", "26604007"]

/-- Python `d.get(k, default)` on a string-keyed dict, modelled on an
association list. -/
def dictGetD {α : Type} (d : List (String × α)) (k : String) (default : α) : α :=
  match d.find? (fun e => e.1 == k) with
  | some e => e.2
  | none => default

/-- The interpretation → abnormal-flag chain of
`create_result_message` (lines 99-113), after Python `.lower()` has been
applied to the interpretation string. `abnormal_flag` starts as `'N'` and an
unmatched string leaves it `'N'`. -/
def interpFlagCore (i : String) : String :=
  if i = "normal" ∨ i = "n" then "N"
  else if i = "abnormal" ∨ i = "a" then "A"
  else if i = "high" ∨ i = "h" then "H"
  else if i = "low" ∨ i = "l" then "L"
  else if i = "critical" ∨ i = "critical high" ∨ i = "hh" then "HH"
  else if i = "critical low" ∨ i = "ll" then "LL"
  else "N"

/-- Python `interpretation.lower()` (the synonyms compared against are all
ASCII). -/
def pyLower (s : String) : String :=
  ⟨s.data.map Char.toLower⟩

/-- `_interpretation = interpretation.lower()` followed by the flag chain. -/
def interpFlag (interpretation : String) : String :=
  interpFlagCore (pyLower interpretation)

/-- Every synonym recognized by the flag chain (lower-cased). -/
def flagSynonyms : List String :=
  ["normal", "n", "abnormal", "a", "high", "h", "low", "l",
   "critical", "critical high", "hh", "critical low", "ll"]

/-- The number of hundredths in `v`, rounded half-to-even: the rounding
Python's `format(v, '.2f')` applies to the (exactly represented) value.
Computed on the numerator and positive denominator with integer floor
division: `q = ⌊100v⌋`, remainder fraction `r/d` compared with `1/2`. -/
def roundHalfEven100 (v : ℚ) : Int :=
  let n := 100 * v.num
  let d := (v.den : Int)
  let q := Int.fdiv n d
  let r := n - d * q
  if 2 * r < d then q
  else if d < 2 * r then q + 1
  else if q % 2 = 0 then q else q + 1

/-- Render `k % 100` hundredths as exactly two decimal digits. -/
def twoDigitStr (k : Nat) : String :=
  Nat.repr (k / 10 % 10) ++ Nat.repr (k % 10)

/-- The fractional part (exactly two digits) of `f"{v:.2f}"`. -/
def format2FracPart (v : ℚ) : String :=
  twoDigitStr ((roundHalfEven100 v).natAbs % 100)

/-- The integer part (with sign) of `f"{v:.2f}"`. -/
def format2IntPart (v : ℚ) : String :=
  let c := roundHalfEven100 v
  (if c < 0 then "-" else "") ++ Nat.repr (c.natAbs / 100)

/-- Python `f"{value:.2f}"`: the value rendered with exactly two digits after
the decimal point. -/
def format2 (v : ℚ) : String :=
  format2IntPart v ++ "." ++ format2FracPart v

/-- One OBX segment of `create_result_message` (line 115):
`OBX|{idx}|NM|{id}^{name}^http://loinc.org||{value:.2f}|{unit}|{reference}|{flag}|||F|||{timestamp}||||||`. -/
def mkObxSegment (idx : Nat) (f : ObsField) (value : ℚ) (flag ts : String) : String :=
  "OBX|" ++ Nat.repr idx ++ "|NM|" ++ f.id ++ "^" ++ f.name ++
    "^http://loinc.org||" ++ format2 value ++ "|" ++ f.unit ++ "|" ++
    f.reference ++ "|" ++ flag ++ "|||F|||" ++ ts ++ "||||||"

/-- The OBX loop of `create_result_message` (lines 93-116): one segment per
entry of `get_observation_fields(test_id)` via `enumerate(obs_fields, 1)`,
value `observation_values.get(field['id'], 0.0)`, interpretation
`observation_interpretations.get(field['id'], 'Normal')`. -/
def obxSegments (test_id : String) (values : List (String × ℚ))
    (interps : List (String × String)) (ts : String) : List String :=
  ((get_observation_fields test_id).enumFrom 1).map (fun p =>
    mkObxSegment p.1 p.2 (dictGetD values p.2.id 0)
      (interpFlag (dictGetD interps p.2.id "Normal")) ts)

/-- The MSH segment of `create_result_message` (line 69). -/
def mshSegmentOf (pd : ParsedOrder) (ts : String) : String :=
  "MSH|^~\\&|LAB_ANALYZER|DUMMY_LAB|" ++ pd.sending_application ++ "|" ++
    pd.sending_facility ++ "|" ++ ts ++ "||ORU^R01|" ++
    pd.message_control_id ++ "_RESULT|P|2.5"

/-- The PID segment of `create_result_message` (line 73). -/
def pidSegmentOf (pd : ParsedOrder) : String :=
  "PID|1||" ++ pd.patient_id ++ "||" ++ pd.patient_name ++ "||" ++
    pd.patient_dob ++ "|" ++ pd.patient_sex ++ "|||" ++ pd.patient_address ++
    "||" ++ pd.patient_phone ++ "|||||||"

/-- The PV1 segment of `create_result_message` (line 78), emitted only when
`parsed_data.get('encounter_id')` is truthy. -/
def pv1SegmentOf (pd : ParsedOrder) : String :=
  "PV1|1|||||||||||||||||" ++ pd.encounter_id ++
    "|||||||||||||||||||||||||||||||||"

/-- The ORC segment of `create_result_message` (line 82). -/
def orcSegmentOf (pd : ParsedOrder) (ts : String) : String :=
  "ORC|RE|" ++ pd.placer_order ++ "|" ++ pd.filler_order ++ "||CM||||" ++
    ts ++ "|||" ++ pd.ordering_provider

/-- The OBR segment of `create_result_message` (lines 86-91): the test field
carries `test_id^test_name^test_system` when `test_system` is truthy, else
`test_id^test_name`. -/
def obrSegmentOf (pd : ParsedOrder) (ts : String) : String :=
  "OBR|1|" ++ pd.placer_order ++ "|" ++ pd.filler_order ++ "|" ++
    pd.test_id ++ "^" ++ pd.test_name ++
    (if pd.test_system ≠ "" then "^" ++ pd.test_system else "") ++
    "|||" ++ ts ++ "|||||||" ++ ts ++ "|||" ++ pd.ordering_provider ++
    "||||||||F"

/-- The segments built before the OBX loop (lines 66-91): MSH, PID, PV1 only
if `encounter_id` is truthy, ORC, OBR. -/
def baseSegments (pd : ParsedOrder) (ts : String) : List String :=
  [mshSegmentOf pd ts, pidSegmentOf pd] ++
    (if pd.encounter_id ≠ "" then [pv1SegmentOf pd] else []) ++
    [orcSegmentOf pd ts, obrSegmentOf pd ts]

/-- `LabAnalyzerService.create_result_message` (lines 58-120): all segments
joined with a carriage return (`'\r'.join(segments)`). The Python default
`observation_interpretations=None` becomes the empty dict, i.e. the empty
association list here; `timestamp` (from `datetime.now()`) is a parameter. -/
def create_result_message (pd : ParsedOrder) (values : List (String × ℚ))
    (interps : List (String × String)) (ts : String) : String :=
  String.intercalate "\r" (baseSegments pd ts ++ obxSegments pd.test_id values interps ts)

/-! ## HL7 order extraction (`DummyLabAnalyzer.parse_order_message`,
`analyzer.py` lines 178-263) -/

/-- Python `s.split('^')` on the component separator, structurally on the
character list: splitting the empty string gives `[""]`, exactly as in
Python. -/
def splitOnChar (sep : Char) : List Char → List (List Char)
  | [] => [[]]
  | c :: rest =>
    let r := splitOnChar sep rest
    if c = sep then [] :: r
    else
      match r with
      | h :: t => (c :: h) :: t
      | [] => [[c]]

/-- `obr_field_4.split('^')` as a string-level operation. -/
def pySplitCaret (s : String) : List String :=
  (splitOnChar '^' s.data).map (fun l => ⟨l⟩)

/-- A parsed HL7 segment as exposed by the `hl7` library: field strings,
index 0 the segment name (`str(seg[i])` stringifies each field). -/
abbrev Segment := List String

/-- A parsed HL7 message: the list of its segments. -/
abbrev HL7Msg := List Segment

/-- `parsed.segment(name) if name in [seg[0][0] for seg in parsed] else None`
(lines 184-188): the first segment whose name field matches, if any. -/
def segmentNamed (msg : HL7Msg) (name : String) : Option Segment :=
  msg.find? (fun seg => seg.headD "" == name)

/-- `str(seg[i])` for a segment known to be long enough. -/
def fieldAt (seg : Segment) (i : Nat) : String := seg.getD i ""

/-- The header-field pattern `str(seg[i]) if seg and len(seg) > i else fb`
(lines 191-193): presence is checked but emptiness is NOT. -/
def hdrField (seg : Option Segment) (i : Nat) (fb : String) : String :=
  match seg with
  | some s => if i < s.length then fieldAt s i else fb
  | none => fb

/-- The patient/visit-field pattern
`str(seg[i]) if seg and len(seg) > i and str(seg[i]) else fb`
(lines 196-204): the field must be present AND non-empty. -/
def optField (seg : Option Segment) (i : Nat) (fb : String) : String :=
  match seg with
  | some s => if i < s.length ∧ fieldAt s i ≠ "" then fieldAt s i else fb
  | none => fb

/-- `seg and len(seg) > i and str(seg[i])` as a Boolean (the guards of the
placer/filler/provider chains, lines 207-226). -/
def presentNonEmpty (seg : Option Segment) (i : Nat) : Bool :=
  match seg with
  | some s => decide (i < s.length) && (fieldAt s i != "")
  | none => false

/-- Field value for a chain branch whose guard `presentNonEmpty` held. -/
def chainVal (seg : Option Segment) (i : Nat) : String :=
  match seg with
  | some s => fieldAt s i
  | none => ""

/-- `DummyLabAnalyzer.parse_order_message` (lines 178-263) on the structure
produced by `hl7.parse`. The two `random.randint` fallbacks (message control
id, filler order) are passed in as `rndMsg`/`rndFiller`. Returns `none` where
the Python code raises (caught by its `except`, returning `None`): OBR
missing, `len(obr) <= 4`, field 4 empty, or first `^`-component empty. -/
def parse_order_message (msg : HL7Msg) (rndMsg rndFiller : Nat) :
    Option ParsedOrder :=
  let msh := segmentNamed msg "MSH"
  let pid := segmentNamed msg "PID"
  let pv1 := segmentNamed msg "PV1"
  let orc := segmentNamed msg "ORC"
  let obr := segmentNamed msg "OBR"
  let sending_application := hdrField msh 3 "ORDER_SYSTEM"
  let sending_facility := hdrField msh 4 "HOSPITAL"
  let message_control_id := hdrField msh 10 ("MSG" ++ Nat.repr rndMsg)
  let patient_id := optField pid 3 "UNKNOWN"
  let patient_name := optField pid 5 "DOE^JOHN"
  let patient_dob := optField pid 7 ""
  let patient_sex := optField pid 8 "U"
  let patient_address := optField pid 11 ""
  let patient_phone := optField pid 13 ""
  let encounter_id := optField pv1 19 ""
  let placer_order :=
    if presentNonEmpty orc 2 then chainVal orc 2
    else if presentNonEmpty obr 2 then chainVal obr 2
    else "ORDER123"
  let filler_order :=
    if presentNonEmpty orc 3 then chainVal orc 3
    else if presentNonEmpty obr 3 then chainVal obr 3
    else "FILLER" ++ Nat.repr rndFiller
  let ordering_provider :=
    if presentNonEmpty orc 12 then chainVal orc 12
    else if presentNonEmpty obr 16 then chainVal obr 16
    else ""
  match obr with
  | none => none
  | some o =>
    if o.length ≤ 4 ∨ fieldAt o 4 = "" then none
    else
      let field_components := pySplitCaret (fieldAt o 4)
      let test_name := if field_components.length > 1 then field_components.getD 1 "" else ""
      let test_system := if field_components.length > 2 then field_components.getD 2 "" else ""
      if field_components.head?.getD "" = "" then none
      else
        some {
          sending_application := sending_application
          sending_facility := sending_facility
          message_control_id := message_control_id
          patient_id := patient_id
          patient_name := patient_name
          patient_dob := patient_dob
          patient_sex := patient_sex
          patient_address := patient_address
          patient_phone := patient_phone
          encounter_id := encounter_id
          placer_order := placer_order
          filler_order := filler_order
          ordering_provider := ordering_provider
          test_id := field_components.head?.getD ""
          test_name := test_name
          test_system := test_system }

/-! ## Order Store (`MessageQueue`, `src/shared/state.py`)

Two models are given. The value-level model below captures every operation
of the locked interface as a pure state transformer over an association list
(Python dicts preserve insertion order; `uuid.uuid4()` and `datetime.now()`
become explicit parameters). The reference-level model further down
additionally captures Python object identity — which record dict a returned
value aliases — which is what claim C3 is about. -/

/-- The record dict built by `MessageQueue.add_message`
(`state.py` lines 29-37). -/
structure StoredMessage where
  id : String
  raw_message : String
  parsed_data : ParsedOrder
  status : String
  received_at : String
  processed_at : Option String
  result_message : Option String
deriving DecidableEq, Repr

/-- The `MessageQueue._messages` dict: id → record, in insertion order. -/
structure MessageQueue where
  messages : List (String × StoredMessage)
deriving DecidableEq, Repr

/-- The fresh record inserted by `add_message`: status `'pending'`,
`processed_at = None`, `result_message = None`. -/
def mkStoredMessage (message_id raw : String) (pd : ParsedOrder)
    (now : String) : StoredMessage :=
  { id := message_id, raw_message := raw, parsed_data := pd,
    status := "pending", received_at := now, processed_at := none,
    result_message := none }

/-- `MessageQueue.add_message` (lines 15-39): insert a fresh `'pending'`
record under the new id and return the id (`message_id` stands for the
generated `uuid.uuid4()` string, `now` for `datetime.now().isoformat()`). -/
def add_message (q : MessageQueue) (message_id raw : String)
    (pd : ParsedOrder) (now : String) : MessageQueue × String :=
  ({ messages := q.messages ++ [(message_id, mkStoredMessage message_id raw pd now)] },
   message_id)

/-- `self._messages.get(message_id)` — the record currently stored under an
id (used to state what the store holds; the aliasing behavior of the Python
`get_message` accessor itself is modelled in the reference-level model). -/
def recordOf (q : MessageQueue) (message_id : String) : Option StoredMessage :=
  (q.messages.find? (fun e => e.1 == message_id)).map (fun e => e.2)

/-- Python truthiness of the `result_message: Optional[str]` argument: the
`if result_message:` guard is false for `None` and for the empty string. -/
def pyTruthy : Option String → Bool
  | some s => s != ""
  | none => false

/-- The mutation `update_status` performs on the found record
(`state.py` lines 70-74): set `status`; stamp `processed_at` when the new
status is `'processed'` or `'discarded'`; set `result_message` when the
argument is truthy. -/
def applyStatusUpdate (m : StoredMessage) (status : String)
    (result_message : Option String) (now : String) : StoredMessage :=
  let m1 := { m with status := status }
  let m2 := if status = "processed" ∨ status = "discarded"
            then { m1 with processed_at := some now } else m1
  if pyTruthy result_message then { m2 with result_message := result_message }
  else m2

/-- `MessageQueue.update_status` (lines 56-76): `False` and no change when
the id is absent; otherwise mutate the record in place and return `True`. -/
def update_status (q : MessageQueue) (message_id status : String)
    (result_message : Option String) (now : String) : MessageQueue × Bool :=
  if (q.messages.find? (fun e => e.1 == message_id)).isSome then
    ({ messages := q.messages.map (fun e =>
        if e.1 == message_id
        then (e.1, applyStatusUpdate e.2 status result_message now)
        else e) },
     true)
  else (q, false)

/-- `MessageQueue.remove_message` (lines 78-84). -/
def remove_message (q : MessageQueue) (message_id : String) :
    MessageQueue × Bool :=
  if (q.messages.find? (fun e => e.1 == message_id)).isSome then
    ({ messages := q.messages.filter (fun e => !(e.1 == message_id)) }, true)
  else (q, false)

/-- `MessageQueue.clear_processed` (lines 86-93): drop every record whose
status is `'processed'` or `'discarded'`, returning how many were dropped. -/
def clear_processed (q : MessageQueue) : MessageQueue × Nat :=
  let keep := q.messages.filter (fun e =>
    !(e.2.status == "processed" || e.2.status == "discarded"))
  ({ messages := keep }, q.messages.length - keep.length)

/-- The store step of `DummyLabAnalyzer.handle_client`
(`analyzer.py` lines 317-323): parse the order; on success add it to the
queue, on failure leave the queue untouched. -/
def ingestStore (q : MessageQueue) (msg : HL7Msg) (raw : String)
    (rndMsg rndFiller : Nat) (newId now : String) : MessageQueue × Option String :=
  match parse_order_message msg rndMsg rndFiller with
  | some pd => let r := add_message q newId raw pd now
               (r.1, some r.2)
  | none => (q, none)

/-! ## Reference-level store model (for the copy-vs-reference claim)

Python dicts are heap objects. `_messages` maps each id to a reference to a
record dict; `get_message` returns that reference itself
(`return self._messages.get(message_id)`, line 44), and `get_all_messages` /
`get_pending_messages` build a new outer dict whose values are the same
references (`dict(self._messages)`, line 49; the comprehension on line 54).
The heap is a list of record dicts indexed by address. -/

/-- The object heap together with the `_messages` mapping id → address. -/
structure RefQueue where
  heap : List StoredMessage
  messages : List (String × Nat)
deriving DecidableEq, Repr

/-- `MessageQueue.get_message` (lines 41-44): the stored reference (address)
itself, not a copy of the record. -/
def ref_get_message (q : RefQueue) (message_id : String) : Option Nat :=
  (q.messages.find? (fun e => e.1 == message_id)).map (fun e => e.2)

/-- `MessageQueue.get_all_messages` (lines 46-49): `dict(self._messages)` —
a fresh outer mapping carrying the same record references. -/
def ref_get_all_messages (q : RefQueue) : List (String × Nat) :=
  q.messages

/-- `MessageQueue.get_pending_messages` (lines 51-54): the fresh outer
mapping filtered to records whose status is `'pending'`; values are still
the stored references. -/
def ref_get_pending_messages (q : RefQueue) : List (String × Nat) :=
  q.messages.filter (fun e =>
    match q.heap.get? e.2 with
    | some m => m.status == "pending"
    | none => false)

/-- Dereference: the record the store itself holds under an id. -/
def storeRecord (q : RefQueue) (message_id : String) : Option StoredMessage :=
  (ref_get_message q message_id).bind (fun a => q.heap.get? a)

/-- A caller mutating a record dict it obtained from a read operation
(e.g. `msg['status'] = ...` on the returned dict): the heap cell at that
address is overwritten; the store's own `_messages` mapping is untouched. -/
def mutateRecord (q : RefQueue) (addr : Nat) (m : StoredMessage) : RefQueue :=
  { q with heap := q.heap.set addr m }

/-! ## Outbound sender (`LabAnalyzerService.send_result`,
`analyzer.py` lines 128-156) -/

/-- The possible outcomes of one `send_result` run, determined by the
downstream receiver and the network. `ackRead bytes` is
`await asyncio.wait_for(reader.read(1024), timeout=5.0)` completing with
`bytes` — which is the empty list when the peer closed the stream without
sending anything (asyncio's `read` returns `b''` at EOF, without raising).
`connectError` covers an exception at connect/write/drain; `ackTimeout` the
`asyncio.TimeoutError`; `closeError` an exception from
`close`/`wait_closed` after the read completed. -/
inductive SendOutcome where
  | connectError : SendOutcome
  | ackTimeout : SendOutcome
  | ackRead : List Nat → SendOutcome
  | closeError : List Nat → SendOutcome
deriving DecidableEq, Repr

/-- The ACK bytes `send_result` actually received, if its read completed. -/
def ackBytes : SendOutcome → Option (List Nat)
  | SendOutcome.ackRead b => some b
  | SendOutcome.closeError b => some b
  | _ => none

/-- `LabAnalyzerService.send_result` (lines 128-156): `True` exactly on the
path that reaches line 149 — connect, write, read ACK, close all without
exception; `False` from the `TimeoutError` and generic `except` handlers.
The function body contains no loop: each call makes exactly one
`open_connection` attempt. -/
def send_result (o : SendOutcome) : Bool :=
  match o with
  | SendOutcome.ackRead _ => true
  | _ => false

/-! ## Concrete sample inputs used by counterexamples and witnesses -/

/-- A representative parsed order (the defaults the extractor would produce
for a minimal order of test `1554-5`). -/
def samplePD : ParsedOrder :=
  { sending_application := "ORDER_SYSTEM", sending_facility := "HOSPITAL",
    message_control_id := "MSG1", patient_id := "UNKNOWN",
    patient_name := "DOE^JOHN", patient_dob := "", patient_sex := "U",
    patient_address := "", patient_phone := "", encounter_id := "",
    placer_order := "ORDER123", filler_order := "FILLER1",
    ordering_provider := "", test_id := "1554-5", test_name := "Glucose",
    test_system := "" }

/-- A parsed order whose test code is not in the observation-field table. -/
def pdNotATest : ParsedOrder :=
  { samplePD with test_id := "NOT_A_TEST", test_name := "" }

/-- A store holding exactly one pending record under id `m1`. -/
def sampleQueue : MessageQueue :=
  (add_message { messages := [] } "m1" "RAW" samplePD "T0").1

/-- `sampleQueue` after `update_status("m1", "processed")` at time `T1`. -/
def qProcessed : MessageQueue :=
  (update_status sampleQueue "m1" "processed" none "T1").1

/-- An inbound order whose MSH segment has fields 3, 4 and 10 present but
empty (11 fields, indices 0-10), with a valid OBR segment. -/
def mshEmptyFieldsMsg : HL7Msg :=
  [["MSH", "|", "^~\\&", "", "", "", "", "", "OML^O21", "", ""],
   ["OBR", "1", "", "", "1554-5^Glucose^LN"]]

/-- The record `parse_order_message` extracts from `mshEmptyFieldsMsg` with
random draws 12345/678: the empty header fields are taken verbatim. -/
def pdEmptyHeader : ParsedOrder :=
  { sending_application := "", sending_facility := "",
    message_control_id := "", patient_id := "UNKNOWN",
    patient_name := "DOE^JOHN", patient_dob := "", patient_sex := "U",
    patient_address := "", patient_phone := "", encounter_id := "",
    placer_order := "ORDER123", filler_order := "FILLER678",
    ordering_provider := "", test_id := "1554-5", test_name := "Glucose",
    test_system := "LN" }

/-- An inbound message with no OBR segment at all. -/
def noObrMsg : HL7Msg := [["MSH", "|", "^~\\&", "APP", "FAC"]]

/-- A reference-level store holding one pending record at heap address 0. -/
def sampleRefQueue : RefQueue :=
  { heap := [mkStoredMessage "m1" "RAW" samplePD "T0"],
    messages := [("m1", 0)] }

/-- The record of `sampleRefQueue` after a caller wrote a new status into
the dict it got back from a read operation. -/
def mutatedMsg : StoredMessage :=
  { mkStoredMessage "m1" "RAW" samplePD "T0" with status := "discarded" }

end MockLab

namespace MockLab

/-! ## Theorems -/

/-- C5: for every byte payload `p`, unwrapping the MLLP frame produced by
wrapping `p` returns exactly `p`: `unwrap_mllp (wrap_mllp p) = p`. -/
theorem C5_mllp_roundtrip (p : List Nat) : unwrap_mllp (wrap_mllp p) = p := by
  have hpre : MLLP_START.isPrefixOf (wrap_mllp p) = true := by
    simp [wrap_mllp, MLLP_START, List.isPrefixOf]
  have hsuf : MLLP_END.isSuffixOf (wrap_mllp p) = true := by
    rw [List.isSuffixOf_iff_suffix]
    exact ⟨MLLP_START ++ p, by simp [wrap_mllp]⟩
  have hlen : (wrap_mllp p).length = p.length + 3 := by
    simp [wrap_mllp, MLLP_START, MLLP_END]
  rw [unwrap_mllp, if_pos (by rw [hpre, hsuf]; rfl)]
  rw [hlen]
  show ((MLLP_START ++ p ++ MLLP_END).drop 1).take (p.length + 3 - 3) = p
  simp [MLLP_START, MLLP_END, List.append_assoc]

/-- Mapping the in-place status update over the association list commutes
with looking the key up: the first matching entry is updated and found. -/
theorem find?_statusMap (l : List (String × StoredMessage)) (id s : String)
    (rm : Option String) (now : String) :
    (l.map (fun e => if e.1 == id then (e.1, applyStatusUpdate e.2 s rm now) else e)).find?
        (fun e => e.1 == id)
      = (l.find? (fun e => e.1 == id)).map
          (fun e => (e.1, applyStatusUpdate e.2 s rm now)) := by
  induction l with
  | nil => rfl
  | cons a t ih =>
    by_cases ha : (a.1 == id) = true
    · simp only [List.map_cons, if_pos ha, List.find?_cons]
      simp [ha]
    · simp only [List.map_cons, if_neg ha, List.find?_cons]
      simp only [ha, cond_false]
      exact ih

/-- What `applyStatusUpdate` does to the record, written out field by
field. -/
theorem applyStatusUpdate_eq (m : StoredMessage) (s : String)
    (rm : Option String) (now : String) :
    applyStatusUpdate m s rm now =
      { m with
        status := s
        processed_at := if s = "processed" ∨ s = "discarded" then some now
                        else m.processed_at
        result_message := if pyTruthy rm then rm else m.result_message } := by
  unfold applyStatusUpdate
  by_cases h1 : s = "processed" ∨ s = "discarded" <;>
    by_cases h2 : pyTruthy rm <;> simp [h1, h2]

/-- `update_status` on a present id: returns `true` and the stored record
becomes `applyStatusUpdate` of the old one. -/
theorem update_status_found (q : MessageQueue) (message_id s : String)
    (rm : Option String) (now : String) (m : StoredMessage)
    (hm : recordOf q message_id = some m) :
    (update_status q message_id s rm now).2 = true
    ∧ recordOf (update_status q message_id s rm now).1 message_id =
        some (applyStatusUpdate m s rm now) := by
  have hfind : (q.messages.find? (fun e => e.1 == message_id)).isSome := by
    unfold recordOf at hm
    cases h : q.messages.find? (fun e => e.1 == message_id) with
    | none => rw [h] at hm; simp at hm
    | some e => simp [h]
  constructor
  · simp [update_status, hfind]
  · unfold recordOf at hm ⊢
    simp only [update_status, hfind, if_true]
    rw [find?_statusMap]
    cases h : q.messages.find? (fun e => e.1 == message_id) with
    | none => rw [h] at hm; simp at hm
    | some e =>
      rw [h] at hm
      simp at hm
      simp [hm]

/-- `update_status` on an absent id: `false`, store untouched. -/
theorem update_status_absent (q : MessageQueue) (message_id s : String)
    (rm : Option String) (now : String)
    (hm : recordOf q message_id = none) :
    update_status q message_id s rm now = (q, false) := by
  have hfind : (q.messages.find? (fun e => e.1 == message_id)) = none := by
    unfold recordOf at hm
    cases h : q.messages.find? (fun e => e.1 == message_id) with
    | none => rfl
    | some e => rw [h] at hm; simp at hm
  simp [update_status, hfind]

/-- C2 is false on the code: after `update_status("m1", "processed")` at
time `T1`, a further `update_status("m1", "pending")` moves the record's
status back to `'pending'`, and a further `update_status("m1", "discarded")`
at `T2` re-stamps `processed_at` from `T1` to `T2` — both fields change
after a terminal status was set. -/
theorem C2_counterexample :
    (recordOf qProcessed "m1").map StoredMessage.status = some "processed"
    ∧ (recordOf qProcessed "m1").map StoredMessage.processed_at =
        some (some "T1")
    ∧ (recordOf (update_status qProcessed "m1" "pending" none "T2").1 "m1").map
        StoredMessage.status = some "pending"
    ∧ (recordOf (update_status qProcessed "m1" "discarded" none "T2").1 "m1").map
        StoredMessage.processed_at = some (some "T2") := by
  refine ⟨by decide, by decide, by decide, by decide⟩

/-- C2 (amended): the store does not enforce monotonicity. Setting a
terminal status `t` stamps `processed_at`, but any subsequent
`update_status` call on the same id still overwrites: the status becomes
the new call's argument `s` (in particular `'pending'` again), and
`processed_at` is re-stamped when `s` is terminal and retained otherwise.
The §3 invariant holds only under caller discipline. -/
theorem C2_amended (q : MessageQueue) (message_id : String)
    (m : StoredMessage) (hm : recordOf q message_id = some m) (t : String)
    (ht : t = "processed" ∨ t = "discarded") (s now1 now2 : String) :
    (recordOf (update_status q message_id t none now1).1 message_id).map
        StoredMessage.status = some t
    ∧ (recordOf (update_status q message_id t none now1).1 message_id).map
        StoredMessage.processed_at = some (some now1)
    ∧ (recordOf (update_status (update_status q message_id t none now1).1
          message_id s none now2).1 message_id).map
        StoredMessage.status = some s
    ∧ (recordOf (update_status (update_status q message_id t none now1).1
          message_id s none now2).1 message_id).map
        StoredMessage.processed_at =
        some (if s = "processed" ∨ s = "discarded" then some now2
              else some now1) := by
  have h1 := (update_status_found q message_id t none now1 m hm).2
  rw [applyStatusUpdate_eq] at h1
  simp only [if_pos ht, pyTruthy, Bool.false_eq_true, if_false] at h1
  have h2 := (update_status_found _ message_id s none now2 _ h1).2
  rw [applyStatusUpdate_eq] at h2
  simp only [pyTruthy, Bool.false_eq_true, if_false] at h2
  refine ⟨by simp [h1], by simp [h1], by simp [h2], by simp [h2]⟩

/-- C2 (amended) at a concrete input: `sampleQueue`, terminal status
`'processed'` at `T1`, then `'pending'` at `T2` — the status re-enters
`'pending'` while `processed_at` keeps the `T1` stamp. -/
theorem C2_amended_witness :
    (recordOf (update_status (update_status sampleQueue "m1" "processed"
        none "T1").1 "m1" "pending" none "T2").1 "m1").map
      StoredMessage.status = some "pending"
    ∧ (recordOf (update_status (update_status sampleQueue "m1" "processed"
        none "T1").1 "m1" "pending" none "T2").1 "m1").map
      StoredMessage.processed_at = some (some "T1") := by
  have h := C2_amended sampleQueue "m1" (mkStoredMessage "m1" "RAW" samplePD "T0")
    (by decide) "processed" (Or.inl rfl) "pending" "T1" "T2"
  have h4 := h.2.2.2
  rw [if_neg (by decide)] at h4
  exact ⟨h.2.2.1, h4⟩

/-- C8 is false on the code in its `resultMessage` clause: `update_status`
guards the write with Python truthiness (`if result_message:`), so a
supplied empty-string result message is NOT recorded — the record's
`result_message` stays `None` even though the call returned `True`. -/
theorem C8_counterexample :
    (update_status sampleQueue "m1" "processed" (some "") "T1").2 = true
    ∧ (recordOf (update_status sampleQueue "m1" "processed" (some "") "T1").1
        "m1").map StoredMessage.result_message = some none := by
  refine ⟨by decide, by decide⟩

/-- C8 (amended): `update_status(id, newStatus, resultMessage)` returns
false and leaves the store completely unchanged when id is absent; when id
is present it returns true, sets the record's status to `newStatus`, stamps
`processed_at` exactly when `newStatus` is `'processed'` or `'discarded'`,
and records `resultMessage` whenever a NON-EMPTY `resultMessage` argument is
supplied (a supplied empty string is ignored like an omitted argument). -/
theorem C8_amended (q : MessageQueue) (message_id s : String)
    (rm : Option String) (now : String) :
    (recordOf q message_id = none →
      update_status q message_id s rm now = (q, false))
    ∧ (∀ m, recordOf q message_id = some m →
        (update_status q message_id s rm now).2 = true
        ∧ recordOf (update_status q message_id s rm now).1 message_id =
            some { m with
              status := s
              processed_at := if s = "processed" ∨ s = "discarded"
                              then some now else m.processed_at
              result_message := if pyTruthy rm then rm
                                else m.result_message }) := by
  constructor
  · intro hm
    exact update_status_absent q message_id s rm now hm
  · intro m hm
    have h := update_status_found q message_id s rm now m hm
    rw [applyStatusUpdate_eq] at h
    exact h

/-- C8 (amended) at concrete inputs: an absent id is a no-op returning
false; on the present id `m1`, status `'discarded'` with result message
`"R"` returns true, stamps `processed_at` and records the result. -/
theorem C8_amended_witness :
    update_status sampleQueue "nope" "processed" none "T1" =
      (sampleQueue, false)
    ∧ (update_status sampleQueue "m1" "discarded" (some "R") "T1").2 = true
    ∧ (recordOf (update_status sampleQueue "m1" "discarded" (some "R") "T1").1
        "m1").map StoredMessage.result_message = some (some "R")
    ∧ (recordOf (update_status sampleQueue "m1" "discarded" (some "R") "T1").1
        "m1").map StoredMessage.processed_at = some (some "T1") := by
  have h1 := (C8_amended sampleQueue "nope" "processed" none "T1").1 (by decide)
  have h2 := (C8_amended sampleQueue "m1" "discarded" (some "R") "T1").2
    (mkStoredMessage "m1" "RAW" samplePD "T0") (by decide)
  refine ⟨h1, h2.1, ?_, ?_⟩ <;>
    rw [h2.2] <;> decide

/-- C10: `update_status` performs no validation of the status argument:
for every string `s` and every present id, `s` is stored verbatim and the
call returns true; `processed_at` is stamped exactly when `s` is
`'processed'` or `'discarded'` and is never cleared — a record set back to
`'pending'` (last conjunct) retains the stamp of the earlier terminal
update. -/
theorem C10_no_status_validation (q : MessageQueue) (message_id : String)
    (m : StoredMessage) (hm : recordOf q message_id = some m) (s : String)
    (rm : Option String) (now1 now2 : String) :
    (update_status q message_id s rm now1).2 = true
    ∧ (recordOf (update_status q message_id s rm now1).1 message_id).map
        StoredMessage.status = some s
    ∧ (recordOf (update_status q message_id s rm now1).1 message_id).map
        StoredMessage.processed_at =
        some (if s = "processed" ∨ s = "discarded" then some now1
              else m.processed_at)
    ∧ (recordOf (update_status (update_status q message_id "processed"
          none now1).1 message_id "pending" none now2).1 message_id).map
        StoredMessage.processed_at = some (some now1) := by
  have h := update_status_found q message_id s rm now1 m hm
  have h1 := (update_status_found q message_id "processed" none now1 m hm).2
  have h2 := (update_status_found _ message_id "pending" none now2 _ h1).2
  rw [applyStatusUpdate_eq] at h
  refine ⟨h.1, by simp [h.2], by simp [h.2], ?_⟩
  rw [h2]
  simp [applyStatusUpdate, pyTruthy]

/-- C10 at a concrete input: the unvalidated status string
`"garbage"` is stored verbatim on `m1` with no `processed_at` stamp, and
the `processed` → `pending` sequence keeps the `T1` stamp. -/
theorem C10_no_status_validation_witness :
    (update_status sampleQueue "m1" "garbage" none "T1").2 = true
    ∧ (recordOf (update_status sampleQueue "m1" "garbage" none "T1").1
        "m1").map StoredMessage.status = some "garbage"
    ∧ (recordOf (update_status sampleQueue "m1" "garbage" none "T1").1
        "m1").map StoredMessage.processed_at = some none
    ∧ (recordOf (update_status (update_status sampleQueue "m1" "processed"
          none "T1").1 "m1" "pending" none "T2").1 "m1").map
        StoredMessage.processed_at = some (some "T1") := by
  have h := C10_no_status_validation sampleQueue "m1"
    (mkStoredMessage "m1" "RAW" samplePD "T0") (by decide) "garbage" none
    "T1" "T2"
  have h3 := h.2.2.1
  rw [if_neg (by decide)] at h3
  exact ⟨h.1, h.2.1, h3, h.2.2.2⟩

/-- C3 is false on the code: `get_message` hands back the stored record
dict itself (address 0 here), and writing a new status through that
reference changes the record the store itself holds — reads do not return
copies of the records. -/
theorem C3_counterexample :
    ref_get_message sampleRefQueue "m1" = some 0
    ∧ storeRecord sampleRefQueue "m1" =
        some (mkStoredMessage "m1" "RAW" samplePD "T0")
    ∧ storeRecord (mutateRecord sampleRefQueue 0 mutatedMsg) "m1" =
        some mutatedMsg
    ∧ mutatedMsg.status ≠ (mkStoredMessage "m1" "RAW" samplePD "T0").status := by
  refine ⟨by decide, by decide, by decide, by decide⟩

/-- C3 (amended): `get_all_messages` and `get_pending_messages` copy only
the outer id → record mapping; all three read operations expose the stored
record objects themselves (`get_message` returns exactly the reference the
store holds), so a record-level mutation through any returned value is
visible in the store's own record. -/
theorem C3_amended (q : RefQueue) (message_id : String) (addr : Nat)
    (h : ref_get_message q message_id = some addr)
    (ha : addr < q.heap.length) (m : StoredMessage) :
    (q.messages.find? (fun e => e.1 == message_id)).map (fun e => e.2) =
      some addr
    ∧ ref_get_all_messages q = q.messages
    ∧ (∀ p, p ∈ ref_get_pending_messages q → p ∈ q.messages)
    ∧ (∀ m0, q.heap.get? addr = some m0 → m0.status = "pending" →
        (message_id, addr) ∈ ref_get_pending_messages q)
    ∧ storeRecord (mutateRecord q addr m) message_id = some m := by
  refine ⟨h, rfl, ?_, ?_, ?_⟩
  · intro p hp
    unfold ref_get_pending_messages at hp
    exact List.mem_of_mem_filter hp
  · intro m0 hm0 hpend
    have h2 := h
    unfold ref_get_message at h2
    cases hf : q.messages.find? (fun e => e.1 == message_id) with
    | none => rw [hf] at h2; simp at h2
    | some e =>
      rw [hf] at h2
      simp at h2
      have he : e ∈ q.messages := List.mem_of_find?_eq_some hf
      have hk : e.1 = message_id := by
        have hpk := List.find?_some hf
        simpa using hpk
      have heq : e = (message_id, addr) := by
        cases e
        simp_all
      rw [heq] at he
      unfold ref_get_pending_messages
      rw [List.mem_filter]
      refine ⟨he, ?_⟩
      rw [List.get?_eq_getElem?] at hm0
      simp [hm0, hpend]
  · have hg : ref_get_message (mutateRecord q addr m) message_id = some addr := h
    unfold storeRecord
    rw [hg]
    show (q.heap.set addr m).get? addr = some m
    rw [List.get?_eq_getElem?]
    exact List.getElem?_set_eq_of_lt m ha

/-- C3 (amended) at a concrete input: on the one-record store, the address
`get_message` returns is the one in `_messages`, `get_pending_messages`
returns that very entry (the same record reference, not a copy), and
mutating through the reference is seen by a subsequent store read. -/
theorem C3_amended_witness :
    ref_get_message sampleRefQueue "m1" = some 0
    ∧ ("m1", 0) ∈ ref_get_pending_messages sampleRefQueue
    ∧ storeRecord (mutateRecord sampleRefQueue 0 mutatedMsg) "m1" =
        some mutatedMsg := by
  have h := C3_amended sampleRefQueue "m1" 0 (by decide) (by decide) mutatedMsg
  refine ⟨by decide, ?_, h.2.2.2.2⟩
  exact h.2.2.2.1 (mkStoredMessage "m1" "RAW" samplePD "T0") (by decide) rfl

/-- C6 is false on the code in its "bytes actually received" clause: when
the downstream receiver accepts the connection and closes the stream
without sending anything, `reader.read(1024)` completes with `b''` before
the timeout (asyncio returns empty bytes at EOF instead of raising), and
`send_result` still returns `True` — with zero response bytes received. -/
theorem C6_counterexample :
    send_result (SendOutcome.ackRead []) = true
    ∧ ackBytes (SendOutcome.ackRead []) = some []
    ∧ (some ([] : List Nat)).map List.length = some 0 := by
  exact ⟨rfl, rfl, rfl⟩

/-- C6 (amended): `send_result` returns `true` exactly when the ACK read
completed before the 5-second timeout and the socket close succeeded — the
read result may be the zero-byte end-of-stream marker; it returns `false`
on the timeout and on any connection error (and on a close error after the
read). The body contains no loop: each call makes exactly one
`open_connection` attempt, with no retry. -/
theorem C6_amended (o : SendOutcome) :
    (send_result o = true ↔ ∃ b, o = SendOutcome.ackRead b)
    ∧ send_result SendOutcome.ackTimeout = false
    ∧ send_result SendOutcome.connectError = false
    ∧ ∀ b, send_result (SendOutcome.closeError b) = false := by
  refine ⟨?_, rfl, rfl, fun b => rfl⟩
  cases o <;> simp [send_result]

set_option maxRecDepth 8192 in
/-- C1 is false on the code: composing with the unknown test code
`"NOT_A_TEST"` does not fail and does produce result text —
`get_observation_fields` returns the empty list, the OBX loop runs zero
times, and `create_result_message` still returns a message made of the
MSH, PID, ORC and OBR segments. -/
theorem C1_counterexample :
    get_observation_fields "NOT_A_TEST" = []
    ∧ obxSegments "NOT_A_TEST" [] [] "20240101120000" = []
    ∧ create_result_message pdNotATest [] [] "20240101120000" =
        String.intercalate "\r" (baseSegments pdNotATest "20240101120000")
    ∧ create_result_message pdNotATest [] [] "20240101120000" ≠ "" := by
  refine ⟨by decide, by decide, by decide, by decide⟩

/-- C1 (amended): an unknown test code is not an error. For a test code
outside the observation-field table, `create_result_message` emits zero
observation segments — it never substitutes a default panel — and returns
the message consisting of the remaining segments (MSH, PID, optional PV1,
ORC, OBR). -/
theorem C1_amended (pd : ParsedOrder) (values : List (String × ℚ))
    (interps : List (String × String)) (ts : String)
    (h : get_observation_fields pd.test_id = []) :
    obxSegments pd.test_id values interps ts = []
    ∧ create_result_message pd values interps ts =
        String.intercalate "\r" (baseSegments pd ts) := by
  have h1 : obxSegments pd.test_id values interps ts = [] := by
    unfold obxSegments
    rw [h]
    rfl
  refine ⟨h1, ?_⟩
  unfold create_result_message
  rw [h1, List.append_nil]

/-- C1 (amended) at the concrete input `"NOT_A_TEST"`. -/
theorem C1_amended_witness :
    get_observation_fields pdNotATest.test_id = []
    ∧ obxSegments pdNotATest.test_id [("x", 1)] [("x", "High")] "TS0" = []
    ∧ create_result_message pdNotATest [("x", 1)] [("x", "High")] "TS0" =
        String.intercalate "\r" (baseSegments pdNotATest "TS0") := by
  have h : get_observation_fields pdNotATest.test_id = [] := by decide
  exact ⟨h, (C1_amended pdNotATest [("x", 1)] [("x", "High")] "TS0" h).1,
    (C1_amended pdNotATest [("x", 1)] [("x", "High")] "TS0" h).2⟩

/-- C9: for every known test code and all value/interpretation maps, the
composed message carries one OBX segment per table entry in table order,
indexed from 1, with the value looked up in `values` (default `0.0`)
rendered with exactly two decimal digits and the abnormal flag obtained by
case-insensitive synonym matching of the interpretation (default
`"Normal"`; any unrecognized string gives `N`); for test code `"1554-5"`
there is exactly one observation segment. -/
theorem C9_composition (tc : String) (hk : tc ∈ knownTestCodes)
    (values : List (String × ℚ)) (interps : List (String × String))
    (ts : String) :
    (obxSegments tc values interps ts).length =
      (get_observation_fields tc).length
    ∧ (∀ k f, (get_observation_fields tc)[k]? = some f →
        (obxSegments tc values interps ts)[k]? =
          some (mkObxSegment (k + 1) f (dictGetD values f.id 0)
            (interpFlag (dictGetD interps f.id "Normal")) ts))
    ∧ (∀ v : ℚ, (format2FracPart v).length = 2)
    ∧ (∀ s : String, pyLower s = "normal" ∨ pyLower s = "n" →
        interpFlag s = "N")
    ∧ (∀ s : String, pyLower s = "abnormal" ∨ pyLower s = "a" →
        interpFlag s = "A")
    ∧ (∀ s : String, pyLower s = "high" ∨ pyLower s = "h" →
        interpFlag s = "H")
    ∧ (∀ s : String, pyLower s = "low" ∨ pyLower s = "l" →
        interpFlag s = "L")
    ∧ (∀ s : String, pyLower s = "critical" ∨ pyLower s = "critical high"
          ∨ pyLower s = "hh" → interpFlag s = "HH")
    ∧ (∀ s : String, pyLower s = "critical low" ∨ pyLower s = "ll" →
        interpFlag s = "LL")
    ∧ (∀ s : String, pyLower s ∉ flagSynonyms → interpFlag s = "N")
    ∧ (get_observation_fields "1554-5").length = 1 := by
  refine ⟨?_, ?_, ?_, ?_, ?_, ?_, ?_, ?_, ?_, ?_, by decide⟩
  · simp [obxSegments, List.length_map, List.enumFrom_length]
  · intro k f hf
    unfold obxSegments
    rw [List.getElem?_map, List.getElem?_enumFrom, hf]
    simp [Nat.add_comm]
  · intro v
    unfold format2FracPart twoDigitStr
    rw [String.length_append]
    have hd : ∀ d : Nat, d < 10 → (Nat.repr d).length = 1 := by decide
    rw [hd _ (Nat.mod_lt _ (by norm_num)), hd _ (Nat.mod_lt _ (by norm_num))]
  · intro s hs
    unfold interpFlag
    rcases hs with h | h <;> rw [h] <;> decide
  · intro s hs
    unfold interpFlag
    rcases hs with h | h <;> rw [h] <;> decide
  · intro s hs
    unfold interpFlag
    rcases hs with h | h <;> rw [h] <;> decide
  · intro s hs
    unfold interpFlag
    rcases hs with h | h <;> rw [h] <;> decide
  · intro s hs
    unfold interpFlag
    rcases hs with h | h | h <;> rw [h] <;> decide
  · intro s hs
    unfold interpFlag
    rcases hs with h | h <;> rw [h] <;> decide
  · intro s hs
    simp only [flagSynonyms, List.mem_cons, List.mem_singleton, not_or] at hs
    obtain ⟨h1, h2, h3, h4, h5, h6, h7, h8, h9, h10, h11, h12, h13⟩ := hs
    simp [interpFlag, interpFlagCore, h1, h2, h3, h4, h5, h6, h7, h8, h9,
      h10, h11, h12, h13]

/-- C9 at a concrete input: test code `"1554-5"`, value `5.5` and
interpretation `"High"` for field `1554-5` give exactly one OBX segment,
with the value rendered `5.50` and flag `H`. -/
theorem C9_composition_witness :
    ("1554-5" ∈ knownTestCodes)
    ∧ obxSegments "1554-5" [("1554-5", mkRat 11 2)] [("1554-5", "High")] "TS" =
        ["OBX|1|NM|1554-5^Glucose^http://loinc.org||5.50|mg/dL|70-105|H|||F|||TS||||||"]
    ∧ (obxSegments "1554-5" [("1554-5", mkRat 11 2)] [("1554-5", "High")] "TS").length =
        (get_observation_fields "1554-5").length := by
  refine ⟨by decide, by decide, ?_⟩
  exact (C9_composition "1554-5" (by decide) [("1554-5", mkRat 11 2)]
    [("1554-5", "High")] "TS").1

/-- C4: when the OBR segment is absent, or too short to have a field 4, or
field 4 is empty, or its first `^`-component is empty, order extraction
fails (`parse_order_message` yields `none`) and the ingest path inserts
nothing into the store. -/
theorem C4_mandatory_test_field (msg : HL7Msg) (rndMsg rndFiller : Nat)
    (h : segmentNamed msg "OBR" = none
       ∨ ∃ o, segmentNamed msg "OBR" = some o
           ∧ (o.length ≤ 4 ∨ fieldAt o 4 = ""
              ∨ (pySplitCaret (fieldAt o 4)).head?.getD "" = "")) :
    parse_order_message msg rndMsg rndFiller = none
    ∧ ∀ (q : MessageQueue) (raw newId now : String),
        ingestStore q msg raw rndMsg rndFiller newId now = (q, none) := by
  have hp : parse_order_message msg rndMsg rndFiller = none := by
    unfold parse_order_message
    rcases h with h | ⟨o, ho, hc⟩
    · simp [h]
    · rw [ho]
      rcases hc with hc | hc | hc
      · simp [hc]
      · simp [hc]
      · by_cases h4 : o.length ≤ 4 ∨ fieldAt o 4 = ""
        · simp [h4]
        · simp [h4, hc]
  refine ⟨hp, ?_⟩
  intro q raw newId now
  simp [ingestStore, hp]

/-- C4 at a concrete input: a message with no OBR segment at all parses to
`none` and leaves the empty store empty. -/
theorem C4_mandatory_test_field_witness :
    segmentNamed noObrMsg "OBR" = none
    ∧ parse_order_message noObrMsg 1 2 = none
    ∧ ingestStore { messages := [] } noObrMsg "RAW" 1 2 "id1" "T0" =
        ({ messages := [] }, none) := by
  refine ⟨by decide, ?_, ?_⟩
  · exact (C4_mandatory_test_field noObrMsg 1 2 (Or.inl (by decide))).1
  · exact (C4_mandatory_test_field noObrMsg 1 2 (Or.inl (by decide))).2
      { messages := [] } "RAW" "id1" "T0"

/-- C7 is false on the code for the three header fields: their guards check
only presence (`len(msh) > i`), not emptiness, so an MSH segment whose
fields 3, 4 and 10 are present but empty yields `sending_application`,
`sending_facility` and `message_control_id` equal to `""` — not the
defaults `"ORDER_SYSTEM"`, `"HOSPITAL"` and the generated `"MSG12345"` the
claim requires on empty source fields. -/
theorem C7_counterexample :
    (parse_order_message mshEmptyFieldsMsg 12345 678).map
        (fun pd => (pd.sending_application, pd.sending_facility,
          pd.message_control_id))
      = some ("", "", "")
    ∧ ("", "", "") ≠ ("ORDER_SYSTEM", "HOSPITAL", "MSG" ++ Nat.repr 12345) := by
  refine ⟨by decide, by decide⟩

/-- C7 (amended): the absent-or-empty fallback rule holds for every
patient, visit and order field — each equals its `optField` sourcing (or
the ORC-then-OBR `presentNonEmpty` chain), and those helpers return the
fallback whenever the segment is missing, too short, or the field is
present but empty — but the header fields (`sendingApplication`,
`sendingFacility`, `messageControlId`) fall back only when the MSH segment
is missing or too short: a present-but-empty header field is extracted
verbatim as the empty string, and in particular an empty MSH-10 does NOT
produce a generated id. -/
theorem C7_amended (msg : HL7Msg) (rndMsg rndFiller : Nat)
    (pd : ParsedOrder)
    (hp : parse_order_message msg rndMsg rndFiller = some pd) :
    pd.sending_application = hdrField (segmentNamed msg "MSH") 3 "ORDER_SYSTEM"
    ∧ pd.sending_facility = hdrField (segmentNamed msg "MSH") 4 "HOSPITAL"
    ∧ pd.message_control_id =
        hdrField (segmentNamed msg "MSH") 10 ("MSG" ++ Nat.repr rndMsg)
    ∧ (∀ s, segmentNamed msg "MSH" = some s → 10 < s.length →
        pd.message_control_id = fieldAt s 10)
    ∧ pd.patient_id = optField (segmentNamed msg "PID") 3 "UNKNOWN"
    ∧ (∀ s, segmentNamed msg "PID" = some s → 3 < s.length →
        fieldAt s 3 = "" → pd.patient_id = "UNKNOWN")
    ∧ pd.patient_name = optField (segmentNamed msg "PID") 5 "DOE^JOHN"
    ∧ pd.patient_dob = optField (segmentNamed msg "PID") 7 ""
    ∧ pd.patient_sex = optField (segmentNamed msg "PID") 8 "U"
    ∧ pd.patient_address = optField (segmentNamed msg "PID") 11 ""
    ∧ pd.patient_phone = optField (segmentNamed msg "PID") 13 ""
    ∧ pd.encounter_id = optField (segmentNamed msg "PV1") 19 ""
    ∧ pd.placer_order =
        (if presentNonEmpty (segmentNamed msg "ORC") 2 then
          chainVal (segmentNamed msg "ORC") 2
         else if presentNonEmpty (segmentNamed msg "OBR") 2 then
          chainVal (segmentNamed msg "OBR") 2
         else "ORDER123")
    ∧ pd.filler_order =
        (if presentNonEmpty (segmentNamed msg "ORC") 3 then
          chainVal (segmentNamed msg "ORC") 3
         else if presentNonEmpty (segmentNamed msg "OBR") 3 then
          chainVal (segmentNamed msg "OBR") 3
         else "FILLER" ++ Nat.repr rndFiller)
    ∧ pd.ordering_provider =
        (if presentNonEmpty (segmentNamed msg "ORC") 12 then
          chainVal (segmentNamed msg "ORC") 12
         else if presentNonEmpty (segmentNamed msg "OBR") 16 then
          chainVal (segmentNamed msg "OBR") 16
         else "")
    ∧ (∀ (i : Nat) (fb : String), optField (none : Option Segment) i fb = fb)
    ∧ (∀ (s : Segment) (i : Nat) (fb : String), s.length ≤ i →
        optField (some s) i fb = fb)
    ∧ (∀ (s : Segment) (i : Nat) (fb : String), fieldAt s i = "" →
        optField (some s) i fb = fb)
    ∧ (∀ i : Nat, presentNonEmpty (none : Option Segment) i = false)
    ∧ (∀ (s : Segment) (i : Nat), s.length ≤ i →
        presentNonEmpty (some s) i = false)
    ∧ (∀ (s : Segment) (i : Nat), fieldAt s i = "" →
        presentNonEmpty (some s) i = false) := by
  unfold parse_order_message at hp
  cases hobr : segmentNamed msg "OBR" with
  | none => rw [hobr] at hp; simp at hp
  | some o =>
    rw [hobr] at hp
    by_cases h4 : o.length ≤ 4 ∨ fieldAt o 4 = ""
    · simp [h4] at hp
    · by_cases hc : (pySplitCaret (fieldAt o 4)).head?.getD "" = ""
      · simp [h4, hc] at hp
      · simp only [h4, hc, if_false, if_neg, not_false_iff,
          Option.some.injEq] at hp
        subst hp
        refine ⟨rfl, rfl, rfl, ?_, rfl, ?_, rfl, rfl, rfl, rfl, rfl, rfl,
          rfl, rfl, rfl, ?_, ?_, ?_, ?_, ?_, ?_⟩
        · intro s hs hlen
          show hdrField (segmentNamed msg "MSH") 10 ("MSG" ++ Nat.repr rndMsg)
            = fieldAt s 10
          rw [hs]
          simp [hdrField, hlen, fieldAt]
        · intro s hs hlen hempty
          show optField (segmentNamed msg "PID") 3 "UNKNOWN" = "UNKNOWN"
          rw [hs]
          simp [optField, hempty]
        · intro i fb
          rfl
        · intro s i fb hle
          simp [optField, Nat.not_lt.mpr hle]
        · intro s i fb hempty
          simp [optField, hempty]
        · intro i
          rfl
        · intro s i hle
          simp [presentNonEmpty, Nat.not_lt.mpr hle]
        · intro s i hempty
          simp [presentNonEmpty, hempty]

/-- C7 (amended) at the concrete input `mshEmptyFieldsMsg`: the extracted
record carries the empty header fields verbatim (`message_control_id` is
exactly the empty MSH-10 field), while the patient, visit and order fields
take their absent-or-empty fallbacks (`"UNKNOWN"`, `"DOE^JOHN"`, empty
encounter, `"ORDER123"`, `"FILLER678"`), and a present-but-empty PID-3
still falls back to `"UNKNOWN"`. -/
theorem C7_amended_witness :
    parse_order_message mshEmptyFieldsMsg 12345 678 = some pdEmptyHeader
    ∧ pdEmptyHeader.message_control_id =
        hdrField (segmentNamed mshEmptyFieldsMsg "MSH") 10
          ("MSG" ++ Nat.repr 12345)
    ∧ pdEmptyHeader.patient_id =
        optField (segmentNamed mshEmptyFieldsMsg "PID") 3 "UNKNOWN"
    ∧ pdEmptyHeader.patient_name =
        optField (segmentNamed mshEmptyFieldsMsg "PID") 5 "DOE^JOHN"
    ∧ pdEmptyHeader.encounter_id =
        optField (segmentNamed mshEmptyFieldsMsg "PV1") 19 ""
    ∧ pdEmptyHeader.placer_order = "ORDER123"
    ∧ pdEmptyHeader.filler_order = "FILLER" ++ Nat.repr 678
    ∧ optField (some ["PID", "1", "", ""]) 3 "UNKNOWN" = "UNKNOWN" := by
  have hp : parse_order_message mshEmptyFieldsMsg 12345 678 =
      some pdEmptyHeader := by decide
  have h := C7_amended mshEmptyFieldsMsg 12345 678 pdEmptyHeader hp
  refine ⟨hp, h.2.2.1, h.2.2.2.2.1, h.2.2.2.2.2.2.1, h.2.2.2.2.2.2.2.2.2.2.2.1,
    by decide, by decide, ?_⟩
  exact h.2.2.2.2.2.2.2.2.2.2.2.2.2.2.2.2.2.1 ["PID", "1", "", ""] 3 "UNKNOWN" rfl

end MockLab
